import Mathlib

/-!
Verification of the tidepool data-science-simulator core against its
natural-language specification.

The shallow embedding below translates the relevant classes of
`tidepool_data_science_simulator` into Lean definitions:

* `Simulation` (models/simulation.py, `Simulation`): the tick loop.
  Component calls made by the engine are recorded in an explicit `trace`
  so the per-tick call ordering can be stated; the physiological content
  of the patient/controller is irrelevant to the engine-level claims.
  Times are modelled in minutes as rationals (Python datetimes form a
  linear order with second/microsecond resolution; `timedelta(minutes=5)`
  adds 5 minutes).
* `SettingSchedule24Hr` (models/simulation.py): daily setting schedules.
  Time-of-day is modelled in microseconds since midnight, matching the
  resolution of Python `datetime.time`.
* `EventTimeline` (models/simulation.py): the rows of the underlying
  pandas DataFrame, in insertion order.
* `LoopController` / `LoopControllerDisconnector` (models/controller.py).
* `Sensor` (models/sensor.py).

Python exceptions are modelled with `Except`; the fallible constructors
return `Except` values instead of raising.
-/

namespace TidepoolSim

/-! ### Simulation engine (models/simulation.py, class Simulation) -/

/-- Calls the simulation engine makes on its member components, in the
order they happen.  `updateFromPrediction t` stands for
`virtual_patient.update_from_prediction(time)`, `controllerUpdate t` for
`controller.update(time, virtual_patient=...)`, `patientUpdate t` for
`virtual_patient.update(time)`, and `storeState t` for the snapshot
`simulation_results[self.time] = SimulationState(...)` taken while
`self.time = t`.  `patientInit` and `patientPredict` are the two extra
calls made once by `Simulation.init`. -/
inductive SimOp where
  | patientInit : SimOp
  | patientPredict : SimOp
  | updateFromPrediction (t : ℚ) : SimOp
  | controllerUpdate (t : ℚ) : SimOp
  | patientUpdate (t : ℚ) : SimOp
  | storeState (t : ℚ) : SimOp
  deriving DecidableEq, Repr

/-- State of `Simulation`: `startTime` is the deep copy of the construction
time, `time` the current simulated time (minutes), `durationHrs` the
configured duration.  `trace` records every component call made so far and
`resultKeys` the keys under which snapshots were stored into
`simulation_results` (insertion order of the Python dict). -/
structure Simulation where
  startTime : ℚ
  time : ℚ
  durationHrs : ℚ
  trace : List SimOp
  resultKeys : List ℚ
  deriving DecidableEq, Repr

/-- `Simulation.update(time)`: `virtual_patient.update_from_prediction(time)`,
then `controller.update(time, virtual_patient=...)`, then
`virtual_patient.update(time)`. -/
def Simulation.update (s : Simulation) (t : ℚ) : Simulation :=
  { s with trace := s.trace ++
      [SimOp.updateFromPrediction t, SimOp.controllerUpdate t, SimOp.patientUpdate t] }

/-- `Simulation.step`: `next_time = self.time + timedelta(minutes=5)`;
`self.time = next_time`; `self.update(next_time)`. -/
def Simulation.step (s : Simulation) : Simulation :=
  Simulation.update { s with time := s.time + 5 } (s.time + 5)

/-- `Simulation.store_state`: `simulation_results[self.time] = SimulationState(
patient_state=..., controller_state=...)`; taking the two component
snapshots is recorded as the single `storeState` operation. -/
def Simulation.store_state (s : Simulation) : Simulation :=
  { s with trace := s.trace ++ [SimOp.storeState s.time],
           resultKeys := s.resultKeys ++ [s.time] }

/-- `Simulation.init`: `controller.update(self.time, ...)`,
`virtual_patient.init()`, `virtual_patient.predict()`, `store_state()`. -/
def Simulation.init_run (s : Simulation) : Simulation :=
  Simulation.store_state
    { s with trace := s.trace ++
        [SimOp.controllerUpdate s.time, SimOp.patientInit, SimOp.patientPredict] }

/-- `Simulation.is_finished`: `(self.time - self.start_time).total_seconds()
/ 3600.0 >= self.duration_hrs`, with time in minutes. -/
def Simulation.is_finished (s : Simulation) : Bool :=
  decide (s.durationHrs ≤ (s.time - s.startTime) / 60)

/-- `Simulation.run`: `while not self.is_finished(): self.step();
self.store_state()`. -/
def Simulation.run (s : Simulation) : Simulation :=
  if s.is_finished then s
  else Simulation.run (Simulation.store_state (Simulation.step s))
termination_by (⌈60 * s.durationHrs - (s.time - s.startTime)⌉).toNat
decreasing_by
  simp only [Simulation.is_finished, Simulation.step, Simulation.update,
    Simulation.store_state, decide_eq_true_eq] at *
  have hlt : s.time - s.startTime < 60 * s.durationHrs := by
    by_contra hcon
    exact (by assumption : ¬ s.durationHrs ≤ (s.time - s.startTime) / 60)
      (by rw [le_div_iff₀ (by norm_num : (0:ℚ) < 60)]; linarith)
  have hc : (0:ℤ) < ⌈60 * s.durationHrs - (s.time - s.startTime)⌉ :=
    Int.ceil_pos.mpr (by linarith [hlt])
  have he : (60 * s.durationHrs - (s.time + 5 - s.startTime))
      = (60 * s.durationHrs - (s.time - s.startTime)) - (5:ℤ) := by
    push_cast; ring
  rw [he, Int.ceil_sub_int]
  omega

/-! ### SettingSchedule24Hr (models/simulation.py)

Time-of-day is a number of microseconds since midnight, the resolution of
Python `datetime.time`; a day has `usPerDay` microseconds.  The
constructor stores, for each configured segment, the key
`(start_time, end_time)` where `end_time` is the time-of-day of
`start + duration_minutes - 1 second` (wrapped around midnight by
`datetime.time`), and `get_state` linearly scans the stored segments for
the first one with `start_time <= current_time <= end_time`. -/

def usPerDay : Nat := 86400000000

def usPerMinute : Nat := 60000000

/-- A stored schedule: the `(start_time, end_time) : value` entries of
`self.schedule`, in insertion order. -/
abbrev Schedule (V : Type) : Type := List ((Nat × Nat) × V)

/-- The stored segment end: `start + timedelta(minutes=d) -
timedelta(seconds=1)` taken as a time-of-day (`.time()` wraps modulo one
day; adding `usPerDay - 1000000` before the `%` realises the 1-second
subtraction on natural numbers). -/
def SettingSchedule24Hr.segmentEnd (start : Nat) (duration_minutes : Nat) : Nat :=
  (start + usPerMinute * duration_minutes + (usPerDay - 1000000)) % usPerDay

/-- The constructor's assertion:
`len(start_times) + len(values) + len(duration_minutes) == len(start_times) * 3`. -/
def SettingSchedule24Hr.scheduleLengthCheck {V : Type} (start_times : List Nat)
    (values : List V) (duration_minutes : List Nat) : Bool :=
  decide (start_times.length + values.length + duration_minutes.length
    = start_times.length * 3)

/-- The `for ... in zip(start_times, values, duration_minutes)` loop body:
one stored entry per zipped triple (`zip` stops at the shortest list). -/
def SettingSchedule24Hr.mkSegments {V : Type} (start_times : List Nat) (values : List V)
    (duration_minutes : List Nat) : Schedule V :=
  (start_times.zip (values.zip duration_minutes)).map
    (fun p => ((p.1, SettingSchedule24Hr.segmentEnd p.1 p.2.2), p.2.1))

/-- `SettingSchedule24Hr.__init__`: the assertion, then the segment
construction loop.  A failed assertion is an `AssertionError`. -/
def SettingSchedule24Hr.init {V : Type} (start_times : List Nat) (values : List V)
    (duration_minutes : List Nat) : Except String (Schedule V) :=
  if SettingSchedule24Hr.scheduleLengthCheck start_times values duration_minutes then
    Except.ok (SettingSchedule24Hr.mkSegments start_times values duration_minutes)
  else
    Except.error ("AssertionError")

/-- `SettingSchedule24Hr.get_state`: return the value of the first stored
segment with `start_time <= current_time <= end_time`; raise if none
matches. -/
def SettingSchedule24Hr.get_state {V : Type} (sched : Schedule V) (current_time : Nat) :
    Except String V :=
  match List.find? (fun seg => decide (seg.1.1 ≤ current_time ∧ current_time ≤ seg.1.2))
      sched with
  | some seg => Except.ok seg.2
  | none => Except.error ("Could not find setting for time")

/-- The configured segments `[start, start + duration)` together cover
every time-of-day of the 24-hour day. -/
def coversDay (start_times : List Nat) (duration_minutes : List Nat) : Prop :=
  ∀ t : Nat, t < usPerDay →
    ∃ p ∈ start_times.zip duration_minutes, p.1 ≤ t ∧ t < p.1 + usPerMinute * p.2

/-! ### EventTimeline (models/simulation.py)

The timeline holds the rows of the pandas DataFrame
`{"date": datetimes, "event": events}` in order.  `get_event` masks the
rows whose date equals the queried time and returns the event of the
first masked row (`.values[0]`), or `None` when the mask is empty. -/

/-- Rows of the `EventTimeline` DataFrame, in order: (date, event). -/
abbrev EventTimeline (E : Type) : Type := List (ℚ × E)

/-- `EventTimeline.get_event(time)`: the event of the first row whose date
equals `time`, else `None`. -/
def EventTimeline.get_event {E : Type} (tl : EventTimeline E) (t : ℚ) : Option E :=
  Option.map Prod.snd (List.find? (fun row => decide (row.1 = t)) tl)

/-- Modelled from the spec: `EventTimeline.add_event` is called by the
controller (controller.py) but its definition is not among the source
files; the spec states `recordEvent(time, event)` inserts or replaces the
event at `time`, last-write-wins at identical timestamps. -/
def EventTimeline.add_event {E : Type} (tl : EventTimeline E) (t : ℚ) (e : E) :
    EventTimeline E :=
  if List.any tl (fun row => decide (row.1 = t)) then
    List.map (fun row => if row.1 = t then (t, e) else row) tl
  else
    tl ++ [(t, e)]

/-- Number of rows of the timeline occupying a given timestamp. -/
def EventTimeline.countAt {E : Type} (tl : EventTimeline E) (t : ℚ) : Nat :=
  (List.filter (fun row => decide (row.1 = t)) tl).length

/-! ### LoopController (models/controller.py)

`Bolus(value, units)` and `TempBasal(time, rate, duration, units)` are the
measures the controller builds from the decision output.  The pyloopkit
decision output dict is modelled by the two entries the controller reads:
`recommended_bolus` (whose value is subscripted with `[0]`) and
`recommended_temp_basal` (a (rate, duration) pair or absent).  Python
run-time errors raised during extraction are modelled by `PyError`. -/

structure Bolus where
  value : ℚ
  units : String
  deriving DecidableEq, Repr

structure TempBasal where
  start_time : ℚ
  value : ℚ
  scheduled_duration_minutes : ℚ
  units : String
  deriving DecidableEq, Repr

/-- Errors of the recommendation-extraction step.
`typeErrorNoneNotSubscriptable` is Python's `TypeError` from subscripting
the `None` returned by `dict.get` on a missing key; `indexError` from
subscripting an empty list.  `controllerOutputError` is modelled from the
spec: the spec's error taxonomy names a `ControllerOutputError` for
malformed decision output, but no class of that name exists anywhere in
the source. -/
inductive PyError where
  | typeErrorNoneNotSubscriptable : PyError
  | indexError : PyError
  | controllerOutputError : PyError
  | invalidCommandError : PyError
  deriving DecidableEq, Repr

/-- The decision-algorithm output entries read by the controller:
`recommended_bolus` maps to a list subscripted at 0 (absent key modelled
as `none`), `recommended_temp_basal` to a (rate, duration) pair or `none`. -/
structure LoopAlgorithmOutput where
  recommended_bolus : Option (List ℚ)
  recommended_temp_basal : Option (ℚ × ℚ)
  deriving DecidableEq, Repr

/-- `LoopController.get_recommended_bolus`:
`bolus_value = loop_algorithm_output.get('recommended_bolus')[0]`, then
`Bolus(bolus_value, "U")` when `bolus_value > 0`, else `None`.  A missing
key makes the subscript raise `TypeError`; an empty list raises
`IndexError`. -/
def LoopController.get_recommended_bolus (out : LoopAlgorithmOutput) :
    Except PyError (Option Bolus) :=
  match out.recommended_bolus with
  | none => Except.error PyError.typeErrorNoneNotSubscriptable
  | some [] => Except.error PyError.indexError
  | some (v :: _) =>
      if 0 < v then Except.ok (some { value := v, units := "U" })
      else Except.ok none

/-- `LoopController.get_recommended_temp_basal`: `None` when the
`recommended_temp_basal` key is absent, else
`TempBasal(self.time, rate, duration, "U/hr")`. -/
def LoopController.get_recommended_temp_basal (time : ℚ) (out : LoopAlgorithmOutput) :
    Except PyError (Option TempBasal) :=
  match out.recommended_temp_basal with
  | none => Except.ok none
  | some rd => Except.ok (some
      { start_time := time, value := rd.1,
        scheduled_duration_minutes := rd.2, units := "U/hr" })

/-- The pump state the controller mutates: the bolus and temp-basal event
timelines and the active temp basal. -/
structure Pump where
  bolus_event_timeline : EventTimeline Bolus
  temp_basal_event_timeline : EventTimeline TempBasal
  active_temp_basal : Option TempBasal
  deriving DecidableEq, Repr

/-- Modelled from the spec: `Pump.deactivate_temp_basal` (pump.py is not
among the source files); the spec's `deactivateTempBasal()` is an explicit
cancel, resuming the schedule, i.e. no active override remains. -/
def Pump.deactivate_temp_basal (p : Pump) : Pump :=
  { p with active_temp_basal := none }

/-- Modelled from the spec: `Pump.set_temp_basal` (pump.py is not among
the source files); the spec's `setTempBasal` starts a new override,
replacing any still-active override, with the timeline recording what was
commanded, and commanding a temp basal with non-positive duration and
non-zero rate is invalid input and fails with `InvalidCommandError`. -/
def Pump.set_temp_basal (p : Pump) (tb : TempBasal) : Except PyError Pump :=
  if tb.scheduled_duration_minutes ≤ 0 ∧ tb.value ≠ 0 then
    Except.error PyError.invalidCommandError
  else
    Except.ok
      { p with active_temp_basal := some tb,
               temp_basal_event_timeline :=
                 EventTimeline.add_event p.temp_basal_event_timeline tb.start_time tb }

/-- The virtual-patient state the controller mutates, with the outcome of
`does_accept_bolus_recommendation` as a predicate on the offered bolus
(in the source it is a probabilistic gate on the patient). -/
structure VirtualPatient where
  bolus_event_timeline : EventTimeline Bolus
  pump : Pump
  accept_bolus : Bolus → Bool

/-- `LoopController.set_bolus_recommendation_event`: add the accepted
bolus at the current time to the patient's bolus timeline and to the
pump's bolus timeline. -/
def LoopController.set_bolus_recommendation_event (time : ℚ) (vp : VirtualPatient)
    (bolus : Bolus) : VirtualPatient :=
  { vp with
    bolus_event_timeline := EventTimeline.add_event vp.bolus_event_timeline time bolus,
    pump := { vp.pump with
      bolus_event_timeline :=
        EventTimeline.add_event vp.pump.bolus_event_timeline time bolus } }

/-- `LoopController.modulate_temp_basal`: set the temp basal on the
virtual patient's pump; the pump command's failure propagates. -/
def LoopController.modulate_temp_basal (vp : VirtualPatient) (tb : TempBasal) :
    Except PyError VirtualPatient :=
  Except.map (fun p => { vp with pump := p }) (Pump.set_temp_basal vp.pump tb)

/-- The `elif temp_basal_rec is not None:` branch of
`apply_loop_recommendations`: zero duration and zero rate is a pyloopkit
cancel (`deactivate_temp_basal`), anything else is commanded on the pump
(which may fail on an invalid command). -/
def LoopController.tempBasalBranch (vp : VirtualPatient) (tbr : Option TempBasal) :
    Except PyError VirtualPatient :=
  match tbr with
  | none => Except.ok vp
  | some tb =>
      if tb.scheduled_duration_minutes = 0 ∧ tb.value = 0 then
        Except.ok { vp with pump := Pump.deactivate_temp_basal vp.pump }
      else
        LoopController.modulate_temp_basal vp tb

/-- `LoopController.apply_loop_recommendations`: extract the bolus and
temp-basal recommendations, then: accepted bolus → record it on both
timelines; otherwise temp-basal branch; otherwise no action. -/
def LoopController.apply_loop_recommendations (time : ℚ) (vp : VirtualPatient)
    (out : LoopAlgorithmOutput) : Except PyError VirtualPatient := do
  let bolus_rec ← LoopController.get_recommended_bolus out
  let temp_basal_rec ← LoopController.get_recommended_temp_basal time out
  match bolus_rec with
  | some b =>
      if vp.accept_bolus b then
        pure (LoopController.set_bolus_recommendation_event time vp b)
      else
        LoopController.tempBasalBranch vp temp_basal_rec
  | none => LoopController.tempBasalBranch vp temp_basal_rec

/-! ### LoopControllerDisconnector (models/controller.py)

The wrapped `LoopController.update` first assigns `self.time = time` and
then runs the rest of its body (timeline re-pointing, input assembly, the
pyloopkit call and applying the recommendations, including any pump
commands); that body is abstracted as a function on the controller-state.
`np.random.random()` returns a draw `u` uniform in `[0, 1)`. -/

/-- Controller state as seen through the decorator: the `time` attribute
plus everything else the wrapped update acts on (`rest` contains in
particular the pump state, so pump commands change only `rest`). -/
structure ControllerState (σ : Type) where
  time : ℚ
  rest : σ
  deriving DecidableEq, Repr

/-- `LoopControllerDisconnector.is_connected`:
`u = np.random.random(); u < self.connect_prob`. -/
def LoopControllerDisconnector.is_connected (connect_prob u : ℚ) : Bool :=
  decide (u < connect_prob)

/-- `LoopController.update` factored into the time assignment followed by
the rest of its body. -/
def LoopController.update_model {σ : Type}
    (body : ℚ → ControllerState σ → ControllerState σ) (t : ℚ)
    (s : ControllerState σ) : ControllerState σ :=
  body t { s with time := t }

/-- `LoopControllerDisconnector.update`: `self.time = time`, then
`super().update(time, ...)` only when `is_connected()`. -/
def LoopControllerDisconnector.update_model {σ : Type} (connect_prob : ℚ)
    (body : ℚ → ControllerState σ → ControllerState σ) (u t : ℚ)
    (s : ControllerState σ) : ControllerState σ :=
  let s1 := { s with time := t }
  if LoopControllerDisconnector.is_connected connect_prob u then
    LoopController.update_model body t s1
  else s1

/-! ### LoopController construction and aliasing (models/controller.py)

To settle the aliasing claim, Python object identity is modelled with an
explicit heap: mutable objects (the event timelines and the settings
mapping) live at natural-number references, and attribute assignment
copies the reference while `copy.deepcopy` allocates fresh references
with equal contents.  `LoopController.__init__` deep-copies
`controller_config` into `self.controller_config` but then reads
`self.bolus_event_timeline = controller_config.bolus_event_timeline`
(and likewise temp-basal and carb) from the ORIGINAL argument, not from
the copy. -/

/-- A `ControllerConfig` as references to its four mutable members. -/
structure ControllerConfigRefs where
  bolus_event_timeline : Nat
  temp_basal_event_timeline : Nat
  carb_event_timeline : Nat
  controller_settings : Nat
  deriving DecidableEq, Repr

/-- The heap: the next fresh reference and the contents stored at each
reference (payloads abstracted as lists of rationals). -/
structure Heap where
  next : Nat
  content : Nat → List ℚ

/-- `copy.deepcopy` applied to a controller config: four fresh references
holding copies of the original contents. -/
def deepcopyConfig (h : Heap) (c : ControllerConfigRefs) : ControllerConfigRefs × Heap :=
  (⟨h.next, h.next + 1, h.next + 2, h.next + 3⟩,
   ⟨h.next + 4, fun r =>
      if r = h.next then h.content c.bolus_event_timeline
      else if r = h.next + 1 then h.content c.temp_basal_event_timeline
      else if r = h.next + 2 then h.content c.carb_event_timeline
      else if r = h.next + 3 then h.content c.controller_settings
      else h.content r⟩)

/-- The reference-valued attributes of a constructed `LoopController`. -/
structure LoopControllerRefs where
  time : ℚ
  controller_config : ControllerConfigRefs
  bolus_event_timeline : Nat
  temp_basal_event_timeline : Nat
  carb_event_timeline : Nat
  deriving DecidableEq, Repr

/-- `LoopController.__init__`: `self.controller_config =
copy.deepcopy(controller_config)`, then the three timeline attributes are
assigned from the original `controller_config` argument. -/
def LoopController.init_refs (t : ℚ) (c : ControllerConfigRefs) (h : Heap) :
    LoopControllerRefs × Heap :=
  let ch := deepcopyConfig h c
  ({ time := t,
     controller_config := ch.1,
     bolus_event_timeline := c.bolus_event_timeline,
     temp_basal_event_timeline := c.temp_basal_event_timeline,
     carb_event_timeline := c.carb_event_timeline }, ch.2)

/-- The pump's three timeline references, as read by
`LoopController.update`. -/
structure PumpRefs where
  bolus_event_timeline : Nat
  carb_event_timeline : Nat
  temp_basal_event_timeline : Nat
  deriving DecidableEq, Repr

/-- The re-pointing at the top of `LoopController.update`: the three
timeline attributes are reassigned to the patient's pump timelines. -/
def LoopController.update_repoint (ctrl : LoopControllerRefs) (t : ℚ)
    (pump : PumpRefs) : LoopControllerRefs :=
  { ctrl with
    time := t,
    bolus_event_timeline := pump.bolus_event_timeline,
    carb_event_timeline := pump.carb_event_timeline,
    temp_basal_event_timeline := pump.temp_basal_event_timeline }

/-! ### Sensor (models/sensor.py)

`Sensor.__init__` deep-copies the sensor config, keeps its glucose
history and sets `current_sensor_bg` to `bg_values[0]` (raising
`IndexError` when the configured history is empty) and
`current_sensor_bg_prediction` to `None`; `get_state` packages both into
a `SensorState`. -/

/-- The configured glucose history (`GlucoseTrace`): parallel lists of
datetimes and bg values. -/
structure GlucoseTrace where
  datetimes : List ℚ
  bg_values : List ℚ
  deriving DecidableEq, Repr

/-- The sensor config: its glucose history. -/
structure SensorConfig where
  sensor_bg_history : GlucoseTrace
  deriving DecidableEq, Repr

/-- The sensor state after `__init__`. -/
structure SensorModel where
  time : ℚ
  sensor_bg_history : GlucoseTrace
  current_sensor_bg : ℚ
  current_sensor_bg_prediction : Option (List ℚ)
  deriving DecidableEq, Repr

/-- The `SensorState` snapshot returned by `get_state`. -/
structure SensorState where
  sensor_bg : ℚ
  sensor_bg_prediction : Option (List ℚ)
  deriving DecidableEq, Repr

/-- `Sensor.__init__`: `current_sensor_bg = sensor_bg_history.bg_values[0]`
(an empty history raises `IndexError`),
`current_sensor_bg_prediction = None`. -/
def Sensor.init (time : ℚ) (cfg : SensorConfig) : Except PyError SensorModel :=
  match cfg.sensor_bg_history.bg_values with
  | [] => Except.error PyError.indexError
  | v :: _ =>
      Except.ok
        { time := time,
          sensor_bg_history := cfg.sensor_bg_history,
          current_sensor_bg := v,
          current_sensor_bg_prediction := none }

/-- `Sensor.get_state`: `SensorState(current_sensor_bg,
current_sensor_bg_prediction)`. -/
def Sensor.get_state (s : SensorModel) : SensorState :=
  { sensor_bg := s.current_sensor_bg,
    sensor_bg_prediction := s.current_sensor_bg_prediction }

/-! ### Theorems -/

/-- Unfolding equation of the `run` loop. -/
theorem Simulation.run_eq (s : Simulation) :
    Simulation.run s = if s.is_finished then s
      else Simulation.run (Simulation.store_state (Simulation.step s)) := by
  rw [Simulation.run]

theorem Simulation.run_startTime (s : Simulation) :
    (Simulation.run s).startTime = s.startTime := by
  induction s using Simulation.run.induct with
  | case1 s hfin => rw [Simulation.run_eq, if_pos hfin]
  | case2 s hfin ih =>
      rw [Simulation.run_eq, if_neg hfin]
      simpa [Simulation.store_state, Simulation.step, Simulation.update] using ih

theorem Simulation.run_durationHrs (s : Simulation) :
    (Simulation.run s).durationHrs = s.durationHrs := by
  induction s using Simulation.run.induct with
  | case1 s hfin => rw [Simulation.run_eq, if_pos hfin]
  | case2 s hfin ih =>
      rw [Simulation.run_eq, if_neg hfin]
      simpa [Simulation.store_state, Simulation.step, Simulation.update] using ih

/-- `run` only stops in a state where `is_finished` holds. -/
theorem Simulation.run_is_finished (s : Simulation) :
    (Simulation.run s).is_finished = true := by
  induction s using Simulation.run.induct with
  | case1 s hfin => rwa [Simulation.run_eq, if_pos hfin]
  | case2 s hfin ih => rwa [Simulation.run_eq, if_neg hfin]

/-- The loop never advances time past the finish line by 5 minutes or more:
the bound `elapsed < 60 * duration + 5` is an invariant of the loop body. -/
theorem Simulation.run_elapsed_upper (s : Simulation)
    (h : s.time - s.startTime < 60 * s.durationHrs + 5) :
    (Simulation.run s).time - (Simulation.run s).startTime
      < 60 * s.durationHrs + 5 := by
  induction s using Simulation.run.induct with
  | case1 s hfin => rwa [Simulation.run_eq, if_pos hfin]
  | case2 s hfin ih =>
      rw [Simulation.run_eq, if_neg hfin]
      have hnf : ¬ s.durationHrs ≤ (s.time - s.startTime) / 60 := by
        simpa [Simulation.is_finished] using hfin
      have hlt : s.time - s.startTime < 60 * s.durationHrs := by
        by_contra hcon
        exact hnf (by rw [le_div_iff₀ (by norm_num : (0:ℚ) < 60)]; linarith)
      simp only [Simulation.store_state, Simulation.step, Simulation.update] at ih ⊢
      exact ih (by simpa using by linarith)

/-- C1: for every tick of the running simulation (a state not yet
finished), the loop body performs exactly, and in this order,
`virtual_patient.update_from_prediction(t)`, `controller.update(t, ...)`,
`virtual_patient.update(t)`, and then stores one snapshot into the result
table keyed by the tick time `t = time + 5`; no other component operation
is interleaved within the tick (the trace grows by exactly these four
operations). -/
theorem simulation_tick_call_order (s : Simulation)
    (h : s.is_finished = false) :
    Simulation.run s = Simulation.run (Simulation.store_state (Simulation.step s)) ∧
    (Simulation.store_state (Simulation.step s)).trace
      = s.trace ++ [SimOp.updateFromPrediction (s.time + 5),
                    SimOp.controllerUpdate (s.time + 5),
                    SimOp.patientUpdate (s.time + 5),
                    SimOp.storeState (s.time + 5)] ∧
    (Simulation.store_state (Simulation.step s)).resultKeys
      = s.resultKeys ++ [s.time + 5] := by
  refine ⟨?_, ?_, ?_⟩
  · rw [Simulation.run_eq s, if_neg (by simp [h])]
  · simp [Simulation.store_state, Simulation.step, Simulation.update]
  · simp [Simulation.store_state, Simulation.step, Simulation.update]

/-- Witness for C1 at the concrete unfinished state
`⟨0, 0, 1, [], []⟩` (start 0, time 0, duration 1 hour). -/
theorem simulation_tick_call_order_witness :
    Simulation.is_finished ⟨0, 0, 1, [], []⟩ = false ∧
    (Simulation.run ⟨0, 0, 1, [], []⟩
        = Simulation.run (Simulation.store_state (Simulation.step ⟨0, 0, 1, [], []⟩)) ∧
      (Simulation.store_state (Simulation.step ⟨0, 0, 1, [], []⟩)).trace
        = [SimOp.updateFromPrediction 5, SimOp.controllerUpdate 5,
           SimOp.patientUpdate 5, SimOp.storeState 5] ∧
      (Simulation.store_state (Simulation.step ⟨0, 0, 1, [], []⟩)).resultKeys = [5]) := by
  refine ⟨by norm_num [Simulation.is_finished], ?_⟩
  have h := simulation_tick_call_order ⟨0, 0, 1, [], []⟩
    (by norm_num [Simulation.is_finished])
  refine ⟨h.1, ?_, ?_⟩
  · have := h.2.1
    norm_num at this ⊢
    exact this
  · have := h.2.2
    norm_num at this ⊢
    exact this

/-- C5: every `step` advances simulated time by exactly 5 minutes; for a
non-negative configured duration, `run` terminates (it is a total
function of the state) in a state whose elapsed simulated hours are at
least the configured duration and overshoot it by less than one 5-minute
step; a duration of zero gives no steps beyond the initial snapshot
(`run` returns the state unchanged). -/
theorem simulation_run_duration_bounds (s : Simulation)
    (hd : 0 ≤ s.durationHrs) (h0 : s.time = s.startTime) :
    (∀ s2 : Simulation, (Simulation.step s2).time = s2.time + 5) ∧
    s.durationHrs ≤ ((Simulation.run s).time - s.startTime) / 60 ∧
    ((Simulation.run s).time - s.startTime) / 60 < s.durationHrs + 5 / 60 ∧
    (s.durationHrs = 0 → Simulation.run s = s) := by
  refine ⟨fun s2 => rfl, ?_, ?_, ?_⟩
  · have hfin := Simulation.run_is_finished s
    simp only [Simulation.is_finished, decide_eq_true_eq] at hfin
    rwa [Simulation.run_startTime, Simulation.run_durationHrs] at hfin
  · have hup := Simulation.run_elapsed_upper s (by rw [h0]; linarith)
    rw [Simulation.run_startTime] at hup
    rw [div_lt_iff₀ (by norm_num : (0:ℚ) < 60)]
    linarith
  · intro hz
    rw [Simulation.run_eq, if_pos]
    simp [Simulation.is_finished, hz, h0]

/-- Witness for C5 at the concrete state `⟨0, 0, 1, [], []⟩`
(duration 1 hour, time = start = 0). -/
theorem simulation_run_duration_bounds_witness :
    (Simulation.step ⟨0, 0, 1, [], []⟩).time = 0 + 5 ∧
    (1:ℚ) ≤ ((Simulation.run ⟨0, 0, 1, [], []⟩).time - 0) / 60 ∧
    ((Simulation.run ⟨0, 0, 1, [], []⟩).time - 0) / 60 < 1 + 5 / 60 ∧
    ((1:ℚ) = 0 → Simulation.run ⟨0, 0, 1, [], []⟩ = ⟨0, 0, 1, [], []⟩) := by
  have h := simulation_run_duration_bounds ⟨0, 0, 1, [], []⟩ (by norm_num) rfl
  exact ⟨h.1 ⟨0, 0, 1, [], []⟩, h.2.1, h.2.2.1, h.2.2.2⟩

/-- C2 counterexample: the two segments (midnight, 720 min) and (noon,
720 min) together cover the full 24-hour day, yet `get_state` raises at
time-of-day 11:59:59.000001, because the first stored segment ends at
11:59:59 (start + duration - 1 second) and the second starts at noon, so
no stored segment brackets the queried time. -/
theorem schedule_get_state_gap_counterexample :
    coversDay [0, 43200000000] [720, 720] ∧
    SettingSchedule24Hr.get_state
        (SettingSchedule24Hr.mkSegments [0, 43200000000] [(1:ℚ), 2] [720, 720])
        43199000001
      = Except.error ("Could not find setting for time") := by
  constructor
  · intro t ht
    simp only [usPerDay] at ht
    by_cases hc : t < 43200000000
    · exact ⟨(0, 720), by decide, by simp only [usPerMinute]; omega⟩
    · exact ⟨(43200000000, 720), by decide, by simp only [usPerMinute]; omega⟩
  · rfl

/-- If `(start, dur)` is one of the zipped configured segments and the
three lists have equal lengths, then some stored segment has exactly that
start and the corresponding stored end. -/
theorem SettingSchedule24Hr.mem_mkSegments_of_mem_zip {V : Type}
    (start_times : List Nat) (values : List V) (duration_minutes : List Nat)
    (ps pd : Nat)
    (hlv : values.length = start_times.length)
    (hld : duration_minutes.length = start_times.length)
    (hmem : (ps, pd) ∈ start_times.zip duration_minutes) :
    ∃ v, ((ps, SettingSchedule24Hr.segmentEnd ps pd), v)
      ∈ SettingSchedule24Hr.mkSegments start_times values duration_minutes := by
  induction start_times generalizing values duration_minutes with
  | nil => simp at hmem
  | cons s sts ih =>
    cases values with
    | nil => simp at hlv
    | cons v vs =>
      cases duration_minutes with
      | nil => simp at hld
      | cons d ds =>
        simp only [List.zip_cons_cons, List.mem_cons] at hmem
        rcases hmem with heq | hmem2
        · refine ⟨v, ?_⟩
          simp only [SettingSchedule24Hr.mkSegments, List.zip_cons_cons, List.map_cons,
            List.mem_cons]
          left
          rw [(Prod.mk.injEq _ _ _ _).mp heq |>.1, (Prod.mk.injEq _ _ _ _).mp heq |>.2]
        · obtain ⟨w, hw⟩ := ih vs ds (by simpa using hlv) (by simpa using hld) hmem2
          refine ⟨w, ?_⟩
          simp only [SettingSchedule24Hr.mkSegments, List.zip_cons_cons, List.map_cons,
            List.mem_cons] at hw ⊢
          exact Or.inr hw

/-- C2 amended: restricted to whole-second times-of-day (and whole-second
segment starts), a schedule whose configured, non-wrapping segments cover
the full day gives a successful `get_state` lookup at every such
time-of-day; and whenever no stored segment brackets the queried
time-of-day, `get_state` fails with the schedule-gap error rather than
returning a default. -/
theorem schedule_get_state_covered_total {V : Type} (start_times : List Nat)
    (values : List V) (duration_minutes : List Nat) (t : Nat)
    (hlv : values.length = start_times.length)
    (hld : duration_minutes.length = start_times.length)
    (hstart : ∀ x ∈ start_times, 1000000 ∣ x)
    (hseg : ∀ p ∈ start_times.zip duration_minutes,
      0 < p.2 ∧ p.1 + usPerMinute * p.2 ≤ usPerDay)
    (hcov : coversDay start_times duration_minutes)
    (ht : t < usPerDay) (htsec : 1000000 ∣ t) :
    (∃ v, SettingSchedule24Hr.get_state
        (SettingSchedule24Hr.mkSegments start_times values duration_minutes) t
      = Except.ok v) ∧
    (∀ (sched : Schedule V) (u : Nat),
        (∀ seg ∈ sched, ¬ (seg.1.1 ≤ u ∧ u ≤ seg.1.2)) →
        SettingSchedule24Hr.get_state sched u
          = Except.error ("Could not find setting for time")) := by
  constructor
  · obtain ⟨⟨ps, pd⟩, hmem, hle, hlt⟩ := hcov t ht
    have hpseg := hseg (ps, pd) hmem
    have hstartp : 1000000 ∣ ps := hstart ps (List.of_mem_zip hmem).1
    simp only at hpseg hle hlt
    have hend : SettingSchedule24Hr.segmentEnd ps pd
        = ps + usPerMinute * pd - 1000000 := by
      simp only [SettingSchedule24Hr.segmentEnd, usPerMinute, usPerDay] at hpseg ⊢
      omega
    have hpred : ps ≤ t ∧ t ≤ SettingSchedule24Hr.segmentEnd ps pd := by
      refine ⟨hle, ?_⟩
      rw [hend]
      simp only [usPerMinute, usPerDay] at hpseg hlt ⊢
      omega
    obtain ⟨v, hmem2⟩ := SettingSchedule24Hr.mem_mkSegments_of_mem_zip
      start_times values duration_minutes ps pd hlv hld hmem
    have hsome : (List.find?
        (fun seg => decide (seg.1.1 ≤ t ∧ t ≤ seg.1.2))
        (SettingSchedule24Hr.mkSegments start_times values duration_minutes)).isSome := by
      rw [List.find?_isSome]
      exact ⟨_, hmem2, by simpa using hpred⟩
    obtain ⟨seg, hseg2⟩ := Option.isSome_iff_exists.mp hsome
    exact ⟨seg.2, by simp only [SettingSchedule24Hr.get_state, hseg2]⟩
  · intro sched u hnone
    have hfind : List.find? (fun seg => decide (seg.1.1 ≤ u ∧ u ≤ seg.1.2)) sched
        = none := by
      rw [List.find?_eq_none]
      intro seg hseg2
      simpa using hnone seg hseg2
    simp only [SettingSchedule24Hr.get_state, hfind]

/-- Witness for the amended C2 at the concrete covering schedule
(midnight and noon, 720 minutes each) and the whole-second time-of-day
01:00:00, plus the gap branch at the empty schedule. -/
theorem schedule_get_state_covered_total_witness :
    (∃ v, SettingSchedule24Hr.get_state
        (SettingSchedule24Hr.mkSegments [0, 43200000000] [(1:ℚ), 2] [720, 720])
        3600000000
      = Except.ok v) ∧
    SettingSchedule24Hr.get_state ([] : Schedule ℚ) 0
      = Except.error ("Could not find setting for time") := by
  have h := schedule_get_state_covered_total (V := ℚ) [0, 43200000000] [(1:ℚ), 2]
    [720, 720] 3600000000 rfl rfl
    (by intro x hx; fin_cases hx <;> decide)
    (by intro p hp; fin_cases hp <;> exact ⟨by decide, by decide⟩)
    (by
      intro t ht
      simp only [usPerDay] at ht
      by_cases hc : t < 43200000000
      · exact ⟨(0, 720), by decide, by simp only [usPerMinute]; omega⟩
      · exact ⟨(43200000000, 720), by decide, by simp only [usPerMinute]; omega⟩)
    (by decide) (by decide)
  exact ⟨h.1, h.2 [] 0 (by intro seg hseg; cases hseg)⟩

/-- C9 counterexample: the constructor's assertion accepts start/value/
duration lists of lengths 2, 1 and 3 (2 + 1 + 3 = 2 * 3), so construction
succeeds on lists that do not all have the same length (`zip` silently
truncates); it also accepts two fully overlapping segments (both starting
at midnight, 1440 minutes each) and an inverted stored range (start at
noon, duration 0, stored end one second before noon). -/
theorem schedule_init_check_counterexample :
    SettingSchedule24Hr.init [0, 43200000000] [(1:ℚ)] [30, 30, 30]
      = Except.ok
          (SettingSchedule24Hr.mkSegments [0, 43200000000] [(1:ℚ)] [30, 30, 30]) ∧
    SettingSchedule24Hr.init [0, 0] [(1:ℚ), 2] [1440, 1440]
      = Except.ok (SettingSchedule24Hr.mkSegments [0, 0] [(1:ℚ), 2] [1440, 1440]) ∧
    SettingSchedule24Hr.init [43200000000] [(1:ℚ)] [0]
      = Except.ok (SettingSchedule24Hr.mkSegments [43200000000] [(1:ℚ)] [0]) ∧
    SettingSchedule24Hr.segmentEnd 43200000000 0 < 43200000000 :=
  ⟨rfl, rfl, rfl, by decide⟩

/-- C9 amended: construction checks only the aggregate length equation
`len(start_times) + len(values) + len(duration_minutes) =
3 * len(start_times)`: it succeeds exactly when values and durations
together have twice as many entries as start times (all equal-length
inputs qualify, but so do unequal lists satisfying the sum, which `zip`
then silently truncates), and it performs no overlap or inversion
validation (`validate_schedule` raises `NotImplementedError` and is never
called). -/
theorem schedule_init_check_iff {V : Type} (start_times : List Nat) (values : List V)
    (duration_minutes : List Nat) :
    SettingSchedule24Hr.init start_times values duration_minutes
        = Except.ok
            (SettingSchedule24Hr.mkSegments start_times values duration_minutes)
      ↔ values.length + duration_minutes.length = 2 * start_times.length := by
  unfold SettingSchedule24Hr.init SettingSchedule24Hr.scheduleLengthCheck
  by_cases h : start_times.length + values.length + duration_minutes.length
      = start_times.length * 3
  · rw [decide_eq_true h, if_pos rfl]
    exact ⟨fun _ => by omega, fun _ => rfl⟩
  · rw [decide_eq_false h]
    simp only [Bool.false_eq_true, if_false]
    constructor
    · intro hcon
      exact Except.noConfusion hcon
    · intro h2
      exact absurd (by omega) h

theorem EventTimeline.countAt_append {E : Type} (l1 l2 : EventTimeline E) (t : ℚ) :
    EventTimeline.countAt (l1 ++ l2) t
      = EventTimeline.countAt l1 t + EventTimeline.countAt l2 t := by
  simp [EventTimeline.countAt, List.filter_append]

theorem EventTimeline.countAt_map_replace {E : Type} (tl : EventTimeline E)
    (t u : ℚ) (e : E) :
    EventTimeline.countAt (List.map (fun row => if row.1 = t then (t, e) else row) tl) u
      = EventTimeline.countAt tl u := by
  unfold EventTimeline.countAt
  rw [List.filter_map, List.length_map]
  congr 1
  apply List.filter_congr
  intro row hmem
  by_cases hrt : row.1 = t
  · simp [Function.comp, hrt]
  · simp [Function.comp, hrt]

theorem EventTimeline.countAt_pos_of_any {E : Type} (tl : EventTimeline E) (t : ℚ)
    (h : List.any tl (fun row => decide (row.1 = t)) = true) :
    0 < EventTimeline.countAt tl t := by
  obtain ⟨row, hmem, hrt⟩ := List.any_eq_true.mp h
  simp only [EventTimeline.countAt, List.length_pos]
  intro hnil
  rw [List.filter_eq_nil_iff] at hnil
  exact hnil row hmem hrt

theorem EventTimeline.countAt_zero_of_not_any {E : Type} (tl : EventTimeline E) (t : ℚ)
    (h : List.any tl (fun row => decide (row.1 = t)) = false) :
    EventTimeline.countAt tl t = 0 := by
  simp only [EventTimeline.countAt, List.length_eq_zero]
  rw [List.filter_eq_nil_iff]
  intro row hmem
  have hrow := List.any_eq_false.mp h row hmem
  simpa using hrow

/-- After `add_event` at `t`, the timestamp `t` is occupied by exactly one
row, provided it was occupied by at most one row before. -/
theorem EventTimeline.countAt_add_event_self {E : Type} (tl : EventTimeline E)
    (t : ℚ) (e : E) (h : EventTimeline.countAt tl t ≤ 1) :
    EventTimeline.countAt (EventTimeline.add_event tl t e) t = 1 := by
  unfold EventTimeline.add_event
  by_cases hany : List.any tl (fun row => decide (row.1 = t)) = true
  · rw [if_pos hany, EventTimeline.countAt_map_replace]
    have hpos := EventTimeline.countAt_pos_of_any tl t hany
    omega
  · rw [if_neg hany, EventTimeline.countAt_append]
    rw [EventTimeline.countAt_zero_of_not_any tl t (Bool.eq_false_iff.mpr hany)]
    simp [EventTimeline.countAt, List.filter_cons]

/-- `add_event` at `t` does not change the occupancy of other timestamps. -/
theorem EventTimeline.countAt_add_event_other {E : Type} (tl : EventTimeline E)
    (t u : ℚ) (e : E) (hne : u ≠ t) :
    EventTimeline.countAt (EventTimeline.add_event tl t e) u
      = EventTimeline.countAt tl u := by
  unfold EventTimeline.add_event
  by_cases hany : List.any tl (fun row => decide (row.1 = t)) = true
  · rw [if_pos hany, EventTimeline.countAt_map_replace]
  · rw [if_neg hany, EventTimeline.countAt_append]
    have hz : EventTimeline.countAt [(t, e)] u = 0 := by
      simp [EventTimeline.countAt, List.filter_cons, Ne.symm hne]
    rw [hz, Nat.add_zero]

/-- After `add_event tl t e`, the exact-timestamp lookup at `t` returns `e`. -/
theorem EventTimeline.get_event_add_event_self {E : Type} (tl : EventTimeline E)
    (t : ℚ) (e : E) :
    EventTimeline.get_event (EventTimeline.add_event tl t e) t = some e := by
  unfold EventTimeline.add_event
  by_cases hany : List.any tl (fun row => decide (row.1 = t)) = true
  · rw [if_pos hany]
    unfold EventTimeline.get_event
    induction tl with
    | nil => simp at hany
    | cons row rest ih =>
        by_cases hrt : row.1 = t
        · simp [List.find?_cons, hrt]
        · simp only [List.map_cons, if_neg hrt]
          rw [List.find?_cons_of_neg _ (by simpa using hrt)]
          exact ih (by simpa [List.any_cons, hrt] using hany)
  · rw [if_neg hany]
    unfold EventTimeline.get_event
    have hnone : List.find? (fun row => decide (row.1 = t)) tl = none := by
      rw [List.find?_eq_none]
      intro row hmem hrow
      exact hany (List.any_eq_true.mpr ⟨row, hmem, hrow⟩)
    rw [List.find?_append, hnone]
    simp

/-- C3: on a timeline in which every timestamp is occupied by at most one
event, recording two events at the identical timestamp leaves exactly one
event occupying that timestamp; the exact-timestamp lookup afterwards
returns the second (most recently recorded) event; and every timestamp is
still occupied by at most one event. -/
theorem eventtimeline_last_write_wins {E : Type} (tl : EventTimeline E)
    (t : ℚ) (e1 e2 : E)
    (hinv : ∀ u : ℚ, EventTimeline.countAt tl u ≤ 1) :
    EventTimeline.countAt
        (EventTimeline.add_event (EventTimeline.add_event tl t e1) t e2) t = 1 ∧
    EventTimeline.get_event
        (EventTimeline.add_event (EventTimeline.add_event tl t e1) t e2) t = some e2 ∧
    (∀ u : ℚ, EventTimeline.countAt
        (EventTimeline.add_event (EventTimeline.add_event tl t e1) t e2) u ≤ 1) := by
  have hinv1 : ∀ u : ℚ,
      EventTimeline.countAt (EventTimeline.add_event tl t e1) u ≤ 1 := by
    intro u
    by_cases hu : u = t
    · subst hu
      rw [EventTimeline.countAt_add_event_self tl u e1 (hinv u)]
    · rw [EventTimeline.countAt_add_event_other tl t u e1 hu]
      exact hinv u
  refine ⟨?_, EventTimeline.get_event_add_event_self _ t e2, ?_⟩
  · exact EventTimeline.countAt_add_event_self _ t e2 (hinv1 t)
  · intro u
    by_cases hu : u = t
    · subst hu
      rw [EventTimeline.countAt_add_event_self _ u e2 (hinv1 u)]
    · rw [EventTimeline.countAt_add_event_other _ t u e2 hu]
      exact hinv1 u

/-- Witness for C3: two writes at timestamp 10 on the concrete one-row
timeline `[(5, 0)]`, the second write storing event 2. -/
theorem eventtimeline_last_write_wins_witness :
    EventTimeline.countAt
        (EventTimeline.add_event (EventTimeline.add_event [((5:ℚ), (0:ℤ))] 10 1) 10 2)
        10 = 1 ∧
    EventTimeline.get_event
        (EventTimeline.add_event (EventTimeline.add_event [((5:ℚ), (0:ℤ))] 10 1) 10 2)
        10 = some 2 ∧
    EventTimeline.countAt
        (EventTimeline.add_event (EventTimeline.add_event [((5:ℚ), (0:ℤ))] 10 1) 10 2)
        5 ≤ 1 := by
  have h := eventtimeline_last_write_wins [((5:ℚ), (0:ℤ))] 10 1 2
    (by
      intro u
      simp only [EventTimeline.countAt, List.filter_cons, List.filter_nil]
      by_cases hu : (5:ℚ) = u
      · simp [hu]
      · simp [hu])
  exact ⟨h.1, h.2.1, h.2.2 5⟩

/-- C4 counterexample: with the pump modelled from the spec (commanding
a temp basal with non-positive duration and non-zero rate is invalid
input and fails with `InvalidCommandError`), a decision output that
recommends a temp basal of rate 5 with duration 0 -- and no applied bolus
-- makes the tick fail with `InvalidCommandError` instead of setting the
temp basal on the pump, refuting that every other recommended temp basal
is set on the pump. -/
theorem controller_set_temp_basal_invalid_counterexample :
    Pump.set_temp_basal
        { bolus_event_timeline := [], temp_basal_event_timeline := [],
          active_temp_basal := none }
        { start_time := 0, value := 5, scheduled_duration_minutes := 0,
          units := "U/hr" }
      = Except.error PyError.invalidCommandError ∧
    LoopController.apply_loop_recommendations 0
        { bolus_event_timeline := [],
          pump := { bolus_event_timeline := [], temp_basal_event_timeline := [],
                    active_temp_basal := none },
          accept_bolus := fun _ => true }
        { recommended_bolus := some [0], recommended_temp_basal := some (5, 0) }
      = Except.error PyError.invalidCommandError := by
  constructor
  · simp [Pump.set_temp_basal]
  · simp [LoopController.apply_loop_recommendations,
      LoopController.get_recommended_bolus, LoopController.get_recommended_temp_basal,
      Bind.bind, Except.bind, LoopController.tempBasalBranch,
      LoopController.modulate_temp_basal, Pump.set_temp_basal, Except.map]

/-- C4 amended: for every well-formed decision output (the
'recommended_bolus' entry is a non-empty list headed by `bv`): if a bolus
is recommended (`bv > 0`) and the patient accepts it, the bolus is
recorded on both the patient's and the pump's bolus timelines; otherwise
a recommended temp basal with zero rate and zero duration deactivates the
pump's active temp basal; otherwise a recommended temp basal that is a
valid pump command (positive duration, or zero rate) is set on the pump;
otherwise a recommended temp basal with non-positive duration and
non-zero rate makes the pump command fail with `InvalidCommandError` and
nothing is set; and when no recommendation applies, the state is
unchanged. -/
theorem controller_applies_recommendations (time : ℚ) (vp : VirtualPatient)
    (out : LoopAlgorithmOutput) (bv : ℚ) (rest : List ℚ)
    (hwf : out.recommended_bolus = some (bv :: rest)) :
    (0 < bv → vp.accept_bolus { value := bv, units := "U" } = true →
      LoopController.apply_loop_recommendations time vp out
        = Except.ok (LoopController.set_bolus_recommendation_event time vp
            { value := bv, units := "U" })) ∧
    (¬ (0 < bv ∧ vp.accept_bolus { value := bv, units := "U" } = true) →
      out.recommended_temp_basal = some (0, 0) →
      LoopController.apply_loop_recommendations time vp out
        = Except.ok { vp with pump := Pump.deactivate_temp_basal vp.pump }) ∧
    (∀ r d : ℚ, ¬ (0 < bv ∧ vp.accept_bolus { value := bv, units := "U" } = true) →
      out.recommended_temp_basal = some (r, d) → ¬ (r = 0 ∧ d = 0) →
      ¬ (d ≤ 0 ∧ r ≠ 0) →
      LoopController.apply_loop_recommendations time vp out
        = Except.ok { vp with pump :=
            { vp.pump with
              active_temp_basal := some
                { start_time := time, value := r,
                  scheduled_duration_minutes := d, units := "U/hr" },
              temp_basal_event_timeline :=
                EventTimeline.add_event vp.pump.temp_basal_event_timeline time
                  { start_time := time, value := r,
                    scheduled_duration_minutes := d, units := "U/hr" } } }) ∧
    (∀ r d : ℚ, ¬ (0 < bv ∧ vp.accept_bolus { value := bv, units := "U" } = true) →
      out.recommended_temp_basal = some (r, d) → d ≤ 0 → r ≠ 0 →
      LoopController.apply_loop_recommendations time vp out
        = Except.error PyError.invalidCommandError) ∧
    (¬ (0 < bv ∧ vp.accept_bolus { value := bv, units := "U" } = true) →
      out.recommended_temp_basal = none →
      LoopController.apply_loop_recommendations time vp out = Except.ok vp) := by
  by_cases hbv : 0 < bv
  · have hrec : LoopController.get_recommended_bolus out
        = Except.ok (some { value := bv, units := "U" }) := by
      simp [LoopController.get_recommended_bolus, hwf, hbv]
    refine ⟨?_, ?_, ?_, ?_, ?_⟩
    · intro _ hacc
      cases htb : out.recommended_temp_basal with
      | none =>
          simp [LoopController.apply_loop_recommendations, Bind.bind, Except.bind,
            pure, Except.pure, hrec,
            LoopController.get_recommended_temp_basal, htb, hacc]
      | some rd =>
          simp [LoopController.apply_loop_recommendations, Bind.bind, Except.bind,
            pure, Except.pure, hrec,
            LoopController.get_recommended_temp_basal, htb, hacc]
    · intro hn htb
      have hacc : vp.accept_bolus { value := bv, units := "U" } = false := by
        by_contra hc
        exact hn ⟨hbv, by simpa using hc⟩
      simp [LoopController.apply_loop_recommendations, Bind.bind, Except.bind,
        pure, Except.pure, hrec,
        LoopController.get_recommended_temp_basal, htb, hacc,
        LoopController.tempBasalBranch]
    · intro r d hn htb hne hvalid
      have hacc : vp.accept_bolus { value := bv, units := "U" } = false := by
        by_contra hc
        exact hn ⟨hbv, by simpa using hc⟩
      have hcond : ¬ ((d:ℚ) = 0 ∧ (r:ℚ) = 0) := fun hc => hne ⟨hc.2, hc.1⟩
      simp [LoopController.apply_loop_recommendations, Bind.bind, Except.bind,
        pure, Except.pure, hrec,
        LoopController.get_recommended_temp_basal, htb, hacc,
        LoopController.tempBasalBranch, LoopController.modulate_temp_basal,
        Pump.set_temp_basal, Except.map, hcond, hvalid]
    · intro r d hn htb hd hr
      have hacc : vp.accept_bolus { value := bv, units := "U" } = false := by
        by_contra hc
        exact hn ⟨hbv, by simpa using hc⟩
      simp [LoopController.apply_loop_recommendations, Bind.bind, Except.bind,
        pure, Except.pure, hrec,
        LoopController.get_recommended_temp_basal, htb, hacc,
        LoopController.tempBasalBranch, LoopController.modulate_temp_basal,
        Pump.set_temp_basal, Except.map, hd, hr]
    · intro hn htb
      cases hacc : vp.accept_bolus { value := bv, units := "U" } with
      | false =>
          simp [LoopController.apply_loop_recommendations, Bind.bind, Except.bind,
            pure, Except.pure, hrec,
            LoopController.get_recommended_temp_basal, htb, hacc,
            LoopController.tempBasalBranch]
      | true => exact absurd ⟨hbv, hacc⟩ hn
  · have hrec : LoopController.get_recommended_bolus out = Except.ok none := by
      simp [LoopController.get_recommended_bolus, hwf, hbv]
    refine ⟨fun hbv2 => absurd hbv2 hbv, ?_, ?_, ?_, ?_⟩
    · intro _ htb
      simp [LoopController.apply_loop_recommendations, Bind.bind, Except.bind,
        pure, Except.pure, hrec,
        LoopController.get_recommended_temp_basal, htb,
        LoopController.tempBasalBranch]
    · intro r d _ htb hne hvalid
      have hcond : ¬ ((d:ℚ) = 0 ∧ (r:ℚ) = 0) := fun hc => hne ⟨hc.2, hc.1⟩
      simp [LoopController.apply_loop_recommendations, Bind.bind, Except.bind,
        pure, Except.pure, hrec,
        LoopController.get_recommended_temp_basal, htb,
        LoopController.tempBasalBranch, LoopController.modulate_temp_basal,
        Pump.set_temp_basal, Except.map, hcond, hvalid]
    · intro r d _ htb hd hr
      simp [LoopController.apply_loop_recommendations, Bind.bind, Except.bind,
        pure, Except.pure, hrec,
        LoopController.get_recommended_temp_basal, htb,
        LoopController.tempBasalBranch, LoopController.modulate_temp_basal,
        Pump.set_temp_basal, Except.map, hd, hr]
    · intro _ htb
      simp [LoopController.apply_loop_recommendations, Bind.bind, Except.bind,
        pure, Except.pure, hrec,
        LoopController.get_recommended_temp_basal, htb,
        LoopController.tempBasalBranch]

/-- Witness for the amended C4: a decision output recommending a 2-unit
bolus, a patient who accepts, and an empty-timeline pump: the bolus lands
on both bolus timelines. -/
theorem controller_applies_recommendations_witness :
    LoopController.apply_loop_recommendations 0
        { bolus_event_timeline := [],
          pump := { bolus_event_timeline := [], temp_basal_event_timeline := [],
                    active_temp_basal := none },
          accept_bolus := fun _ => true }
        { recommended_bolus := some [2], recommended_temp_basal := none }
      = Except.ok (LoopController.set_bolus_recommendation_event 0
          { bolus_event_timeline := [],
            pump := { bolus_event_timeline := [], temp_basal_event_timeline := [],
                      active_temp_basal := none },
            accept_bolus := fun _ => true }
          { value := 2, units := "U" }) :=
  (controller_applies_recommendations 0
    { bolus_event_timeline := [],
      pump := { bolus_event_timeline := [], temp_basal_event_timeline := [],
                active_temp_basal := none },
      accept_bolus := fun _ => true }
    { recommended_bolus := some [2], recommended_temp_basal := none }
    2 [] rfl).1 (by norm_num) rfl

/-- C8 counterexample: a decision output with no 'recommended_bolus'
entry makes the extraction fail with the TypeError raised by subscripting
`None` -- an unrelated low-level error -- not with a
`ControllerOutputError` (no such class exists in the source), and it does
not succeed either. -/
theorem controller_output_error_counterexample :
    LoopController.get_recommended_bolus
        { recommended_bolus := none, recommended_temp_basal := none }
      = Except.error PyError.typeErrorNoneNotSubscriptable ∧
    LoopController.get_recommended_bolus
        { recommended_bolus := none, recommended_temp_basal := none }
      ≠ Except.error PyError.controllerOutputError :=
  ⟨rfl, fun h => PyError.noConfusion (Except.error.inj h)⟩

/-- C8 amended: a decision output missing the 'recommended_bolus' key
makes `get_recommended_bolus` fail with the TypeError from subscripting
`None` (there is no `ControllerOutputError` in the code), while a missing
'recommended_temp_basal' key does not fail at all:
`get_recommended_temp_basal` just returns no recommendation. -/
theorem controller_malformed_output_behavior (time : ℚ) (out : LoopAlgorithmOutput) :
    (out.recommended_bolus = none →
      LoopController.get_recommended_bolus out
        = Except.error PyError.typeErrorNoneNotSubscriptable) ∧
    (out.recommended_temp_basal = none →
      LoopController.get_recommended_temp_basal time out = Except.ok none) := by
  constructor
  · intro h
    simp [LoopController.get_recommended_bolus, h]
  · intro h
    simp [LoopController.get_recommended_temp_basal, h]

/-- Witness for the amended C8 at the empty decision output. -/
theorem controller_malformed_output_behavior_witness :
    LoopController.get_recommended_bolus
        { recommended_bolus := none, recommended_temp_basal := none }
      = Except.error PyError.typeErrorNoneNotSubscriptable ∧
    LoopController.get_recommended_temp_basal 0
        { recommended_bolus := none, recommended_temp_basal := none }
      = Except.ok none :=
  ⟨(controller_malformed_output_behavior 0
      { recommended_bolus := none, recommended_temp_basal := none }).1 rfl,
   (controller_malformed_output_behavior 0
      { recommended_bolus := none, recommended_temp_basal := none }).2 rfl⟩

/-- C6: for every draw `u` of `np.random.random()` (so `0 ≤ u < 1`): with
connection probability 0 the disconnector never forwards the tick to the
wrapped controller's body -- only the `time` attribute changes, so no pump
command or other mutation is issued, and over a whole run (any sequence
of ticks with their draws) the non-time state is untouched; with
connection probability 1 it forwards every tick, agreeing exactly with the
wrapped controller's update on the same state and draw. -/
theorem disconnector_prob_extremes {σ : Type}
    (body : ℚ → ControllerState σ → ControllerState σ) (u t : ℚ)
    (s : ControllerState σ) (hu0 : 0 ≤ u) (hu1 : u < 1) :
    (LoopControllerDisconnector.update_model 0 body u t s = { s with time := t }) ∧
    ((LoopControllerDisconnector.update_model 0 body u t s).rest = s.rest) ∧
    (LoopControllerDisconnector.update_model 1 body u t s
      = LoopController.update_model body t s) ∧
    (∀ ticks : List (ℚ × ℚ), (∀ p ∈ ticks, 0 ≤ p.2) →
      (List.foldl
          (fun st p => LoopControllerDisconnector.update_model 0 body p.2 p.1 st)
          s ticks).rest = s.rest) := by
  have hconn0 : LoopControllerDisconnector.is_connected 0 u = false := by
    simp only [LoopControllerDisconnector.is_connected, decide_eq_false_iff_not, not_lt]
    exact hu0
  have hconn1 : LoopControllerDisconnector.is_connected 1 u = true := by
    simp only [LoopControllerDisconnector.is_connected, decide_eq_true_eq]
    exact hu1
  refine ⟨?_, ?_, ?_, ?_⟩
  · simp [LoopControllerDisconnector.update_model, hconn0]
  · simp [LoopControllerDisconnector.update_model, hconn0]
  · simp only [LoopControllerDisconnector.update_model, hconn1, if_pos]
    rfl
  · intro ticks hticks
    induction ticks generalizing s with
    | nil => rfl
    | cons p ps ih =>
        have hp0 : 0 ≤ p.2 := hticks p (List.mem_cons_self p ps)
        have hc : LoopControllerDisconnector.is_connected 0 p.2 = false := by
          simp only [LoopControllerDisconnector.is_connected, decide_eq_false_iff_not,
            not_lt]
          exact hp0
        simp only [List.foldl_cons]
        rw [show LoopControllerDisconnector.update_model 0 body p.2 p.1 s
            = { s with time := p.1 } by
          simp [LoopControllerDisconnector.update_model, hc]]
        exact ih { s with time := p.1 } (fun q hq => hticks q (List.mem_cons_of_mem p hq))

/-- Witness for C6 with a body that bumps a counter: connection
probability 0 leaves the counter alone (single tick and a two-tick run),
probability 1 agrees with the wrapped update. -/
theorem disconnector_prob_extremes_witness :
    (LoopControllerDisconnector.update_model 0
        (fun t2 st => ({ time := t2, rest := st.rest + 1 } : ControllerState ℤ)) (1/2) 7
        { time := 0, rest := 0 }
      = { time := 7, rest := 0 }) ∧
    ((LoopControllerDisconnector.update_model 0
        (fun t2 st => ({ time := t2, rest := st.rest + 1 } : ControllerState ℤ)) (1/2) 7
        { time := 0, rest := 0 }).rest = 0) ∧
    (LoopControllerDisconnector.update_model 1
        (fun t2 st => ({ time := t2, rest := st.rest + 1 } : ControllerState ℤ)) (1/2) 7
        { time := 0, rest := 0 }
      = LoopController.update_model
          (fun t2 st => ({ time := t2, rest := st.rest + 1 } : ControllerState ℤ)) 7
          { time := 0, rest := 0 }) ∧
    ((List.foldl
        (fun st p => LoopControllerDisconnector.update_model 0
          (fun t2 st2 => ({ time := t2, rest := st2.rest + 1 } : ControllerState ℤ))
          p.2 p.1 st)
        { time := 0, rest := 0 }
        [(5, 0), (10, 1/2)]).rest = 0) := by
  have h := disconnector_prob_extremes
    (fun t2 st => ({ time := t2, rest := st.rest + 1 } : ControllerState ℤ))
    (1/2) 7 { time := 0, rest := 0 } (by norm_num) (by norm_num)
  exact ⟨h.1, h.2.1, h.2.2.1,
    h.2.2.2 [(5, 0), (10, 1/2)] (by
      intro p hp
      fin_cases hp <;> norm_num)⟩

/-- C7 counterexample: constructing a `LoopController` from the concrete
config whose timelines live at references 0, 1, 2 (settings at 3) leaves
the controller's three event-timeline attributes aliasing the ORIGINAL
configuration's timelines (references 0, 1 and 2, not the fresh copies 4,
5, 6), refuting the claim that after construction the controller shares
no mutable structure -- in particular no event timeline -- with the
original configuration object. -/
theorem loopcontroller_init_aliases_counterexample :
    (LoopController.init_refs 0 ⟨0, 1, 2, 3⟩ ⟨4, fun _ => []⟩).1.bolus_event_timeline
      = (⟨0, 1, 2, 3⟩ : ControllerConfigRefs).bolus_event_timeline ∧
    (LoopController.init_refs 0 ⟨0, 1, 2, 3⟩ ⟨4, fun _ => []⟩).1.temp_basal_event_timeline
      = (⟨0, 1, 2, 3⟩ : ControllerConfigRefs).temp_basal_event_timeline ∧
    (LoopController.init_refs 0 ⟨0, 1, 2, 3⟩ ⟨4, fun _ => []⟩).1.carb_event_timeline
      = (⟨0, 1, 2, 3⟩ : ControllerConfigRefs).carb_event_timeline ∧
    (LoopController.init_refs 0 ⟨0, 1, 2, 3⟩
        ⟨4, fun _ => []⟩).1.controller_config.bolus_event_timeline = 4 :=
  ⟨rfl, rfl, rfl, rfl⟩

/-- C7 amended: construction deep-copies the configuration object into
`self.controller_config` (fresh references with equal contents, so the
settings are not shared), but the controller's three event-timeline
attributes are initialised from the ORIGINAL configuration and alias its
timelines; the alias lasts only until the first `update`, whose
re-pointing replaces all three attributes with the pump's timelines, so
the behaviour of an updating controller does not depend on the original
config object's timelines. -/
theorem loopcontroller_init_deepcopy_and_alias (t : ℚ) (c : ControllerConfigRefs)
    (h : Heap)
    (hb : c.bolus_event_timeline < h.next)
    (htb : c.temp_basal_event_timeline < h.next)
    (hc : c.carb_event_timeline < h.next)
    (hs : c.controller_settings < h.next) :
    ((LoopController.init_refs t c h).1.controller_config.bolus_event_timeline
        ≠ c.bolus_event_timeline ∧
      (LoopController.init_refs t c h).1.controller_config.temp_basal_event_timeline
        ≠ c.temp_basal_event_timeline ∧
      (LoopController.init_refs t c h).1.controller_config.carb_event_timeline
        ≠ c.carb_event_timeline ∧
      (LoopController.init_refs t c h).1.controller_config.controller_settings
        ≠ c.controller_settings) ∧
    ((LoopController.init_refs t c h).2.content
        (LoopController.init_refs t c h).1.controller_config.controller_settings
      = h.content c.controller_settings) ∧
    ((LoopController.init_refs t c h).1.bolus_event_timeline
        = c.bolus_event_timeline ∧
      (LoopController.init_refs t c h).1.temp_basal_event_timeline
        = c.temp_basal_event_timeline ∧
      (LoopController.init_refs t c h).1.carb_event_timeline
        = c.carb_event_timeline) ∧
    (∀ (t2 : ℚ) (pump : PumpRefs),
      (LoopController.update_repoint (LoopController.init_refs t c h).1 t2
          pump).bolus_event_timeline = pump.bolus_event_timeline ∧
      (LoopController.update_repoint (LoopController.init_refs t c h).1 t2
          pump).temp_basal_event_timeline = pump.temp_basal_event_timeline ∧
      (LoopController.update_repoint (LoopController.init_refs t c h).1 t2
          pump).carb_event_timeline = pump.carb_event_timeline) := by
  refine ⟨⟨?_, ?_, ?_, ?_⟩, ?_, ⟨rfl, rfl, rfl⟩, ?_⟩
  · simp only [LoopController.init_refs, deepcopyConfig]
    omega
  · simp only [LoopController.init_refs, deepcopyConfig]
    omega
  · simp only [LoopController.init_refs, deepcopyConfig]
    omega
  · simp only [LoopController.init_refs, deepcopyConfig]
    omega
  · simp only [LoopController.init_refs, deepcopyConfig]
    have h1 : h.next + 3 ≠ h.next := by omega
    have h2 : h.next + 3 ≠ h.next + 1 := by omega
    have h3 : h.next + 3 ≠ h.next + 2 := by omega
    simp [h1, h2, h3]
  · intro t2 pump
    exact ⟨rfl, rfl, rfl⟩

/-- Witness for the amended C7 at the concrete config with references
0, 1, 2, 3 and a heap whose next fresh reference is 4. -/
theorem loopcontroller_init_deepcopy_and_alias_witness :
    ((LoopController.init_refs 0 ⟨0, 1, 2, 3⟩
        ⟨4, fun _ => []⟩).1.controller_config.bolus_event_timeline ≠ 0) ∧
    ((LoopController.init_refs 0 ⟨0, 1, 2, 3⟩ ⟨4, fun _ => []⟩).1.bolus_event_timeline
      = 0) ∧
    ((LoopController.update_repoint
        (LoopController.init_refs 0 ⟨0, 1, 2, 3⟩ ⟨4, fun _ => []⟩).1 5
        ⟨7, 8, 9⟩).bolus_event_timeline = 7) := by
  have h := loopcontroller_init_deepcopy_and_alias 0 ⟨0, 1, 2, 3⟩ ⟨4, fun _ => []⟩
    (by norm_num) (by norm_num) (by norm_num) (by norm_num)
  exact ⟨h.1.1, h.2.2.1.1, (h.2.2.2 5 ⟨7, 8, 9⟩).1⟩

/-- C10: for every sensor config whose glucose history is non-empty
(headed by `v`), construction succeeds, the sensor's current measured
glucose is that first (oldest) configured value, and `get_state` returns
a state with that measured glucose and no predicted trajectory; for a
config with an empty glucose history, construction fails. -/
theorem sensor_init_first_history_value (time v : ℚ) (rest : List ℚ)
    (cfg : SensorConfig) (hne : cfg.sensor_bg_history.bg_values = v :: rest) :
    (∃ s, Sensor.init time cfg = Except.ok s ∧
      s.current_sensor_bg = v ∧
      Sensor.get_state s = { sensor_bg := v, sensor_bg_prediction := none }) ∧
    (∀ cfg2 : SensorConfig, cfg2.sensor_bg_history.bg_values = [] →
      Sensor.init time cfg2 = Except.error PyError.indexError) := by
  constructor
  · refine ⟨⟨time, cfg.sensor_bg_history, v, none⟩, ?_, rfl, rfl⟩
    simp [Sensor.init, hne]
  · intro cfg2 hempty
    simp [Sensor.init, hempty]

/-- Witness for C10 at a concrete two-sample history and at the empty
history. -/
theorem sensor_init_first_history_value_witness :
    (∃ s, Sensor.init 0 ⟨⟨[0, 5], [110, 120]⟩⟩ = Except.ok s ∧
      s.current_sensor_bg = 110 ∧
      Sensor.get_state s = ⟨110, none⟩) ∧
    Sensor.init 0 ⟨⟨[], []⟩⟩ = Except.error PyError.indexError := by
  have h := sensor_init_first_history_value 0 110 [120] ⟨⟨[0, 5], [110, 120]⟩⟩ rfl
  exact ⟨h.1, h.2 ⟨⟨[], []⟩⟩ rfl⟩

end TidepoolSim
